import Mathlib

/-!
Verification of `intothreshlantern` (src/itl/datastruct.py, src/itl/scraper.py).

The Python code is shallowly embedded: Python attribute slots that "do not
initially exist" become `Option`-valued fields, `raise` becomes `Except.error`,
and dynamically typed attribute values become an explicit value universe
(`PyVal` for elements of an iterable, `PyAny` for arbitrary attribute values).
Remote HTTP calls and thread scheduling are abstracted: each of the ten fetch
tasks is given an outcome by an environment function, and the nondeterministic
completion order of `concurrent.futures.as_completed` is an explicit list
parameter.
-/

set_option autoImplicit false

namespace ITL

/-- `ChampionSummary` from datastruct.py: an immutable NamedTuple.  Float
statistics are modelled as `Int`; no claim computes with them. -/
structure ChampionSummary where
  champion : String
  role : String
  csm : Int
  gd15 : Int
  k : Int
  d : Int
  a : Int
  dpm : Int
  kp : Int
  losses : Int
  wins : Int
  lp : Int
deriving DecidableEq, Repr

/-- Universe of Python values that can occur as elements of an iterable passed
to `SummonerInformation.__setattr__` (summaries, strings, `None`, ints). -/
inductive PyVal where
  | summary (cs : ChampionSummary)
  | str (s : String)
  | pynone
  | pyint (n : Int)
deriving DecidableEq, Repr

/-- Universe of Python values assignable to an attribute: either an atomic
value or a list (the only compound iterable the program ever passes). -/
inductive PyAny where
  | atom (v : PyVal)
  | list (xs : List PyVal)
deriving DecidableEq, Repr

/-- `iter(value)` in Python: a list yields its elements, a string yields its
characters (as one-character strings), the other atoms raise `TypeError`
(modelled as `none`). -/
def pyIter : PyAny → Option (List PyVal)
  | .list xs => some xs
  | .atom (.str s) => some (s.data.map fun c => .str (String.singleton c))
  | .atom _ => none

/-- `isinstance(v, ChampionSummary)`. -/
def isChampionSummary : PyVal → Bool
  | .summary _ => true
  | _ => false

/-- The exceptions the embedded code can raise.  `reassignment` is the
`TypeError("... does not support item reassignment")` at datastruct.py:47
(the spec's `InvariantViolation`); `badValue` is the
`TypeError("... should be an iterable of 'ChampionSummary' objects")` at
datastruct.py:54 (the spec's `InvalidInput`); `attributeError` is the
`AttributeError` raised when an unset `__slots__` attribute is read. -/
inductive PyError where
  | reassignment
  | badValue
  | attributeError
deriving DecidableEq, Repr

/-- The four slots of `SummonerInformation.__slots__`. -/
inductive Attr where
  | region
  | name
  | champion_pool
  | matchup_pool
deriving DecidableEq, Repr

/-- `SummonerInformation` from datastruct.py.  Every slot starts absent
(`none`); `__init__` fills `region` and `name`. -/
structure SummonerInformation where
  region : Option PyAny
  name : Option PyAny
  champion_pool : Option PyAny
  matchup_pool : Option PyAny
deriving DecidableEq, Repr

namespace SummonerInformation

/-- `hasattr(self, attr)`: whether the slot is set. -/
def hasattr (s : SummonerInformation) : Attr → Bool
  | .region => s.region.isSome
  | .name => s.name.isSome
  | .champion_pool => s.champion_pool.isSome
  | .matchup_pool => s.matchup_pool.isSome

/-- `getattr(self, attr)`: reading an unset slot raises `AttributeError`. -/
def getattr (s : SummonerInformation) : Attr → Except PyError PyAny
  | .region => match s.region with
    | some v => .ok v
    | none => .error .attributeError
  | .name => match s.name with
    | some v => .ok v
    | none => .error .attributeError
  | .champion_pool => match s.champion_pool with
    | some v => .ok v
    | none => .error .attributeError
  | .matchup_pool => match s.matchup_pool with
    | some v => .ok v
    | none => .error .attributeError

/-- `object.__setattr__`: store the value in the slot unconditionally. -/
def store (s : SummonerInformation) (a : Attr) (v : PyAny) : SummonerInformation :=
  match a with
  | .region => { s with region := some v }
  | .name => { s with name := some v }
  | .champion_pool => { s with champion_pool := some v }
  | .matchup_pool => { s with matchup_pool := some v }

/-- The guard computed at datastruct.py:49-52:
`check = all(isinstance(stats, ChampionSummary) for stats in value)`, with any
exception (e.g. `value` not iterable) turned into `check = False`. -/
def summaryCheck (v : PyAny) : Bool :=
  match pyIter v with
  | some xs => xs.all isChampionSummary
  | none => false

/-- `SummonerInformation.__setattr__` (datastruct.py:45-55): reject any write
to an already-set slot, type-check writes to the two pool slots, then store. -/
def setattr (s : SummonerInformation) (a : Attr) (v : PyAny) :
    Except PyError SummonerInformation :=
  if s.hasattr a then
    .error .reassignment
  else if a = .champion_pool ∨ a = .matchup_pool then
    if summaryCheck v then .ok (s.store a v) else .error .badValue
  else
    .ok (s.store a v)

/-- `SummonerInformation.__init__` (datastruct.py:41-43): starting from an
object with all slots unset, assign `region` then `name` through
`__setattr__`. -/
def init (region name : String) : Except PyError SummonerInformation := do
  let s0 : SummonerInformation := ⟨none, none, none, none⟩
  let s1 ← setattr s0 .region (.atom (.str region))
  setattr s1 .name (.atom (.str name))

/-- `SummonerInformation.__bool__` (datastruct.py:57-58):
`(self.champion_pool is not None) and (self.matchup_pool is not None)`, where
reading an unset slot raises `AttributeError` and `and` short-circuits. -/
def toBool (s : SummonerInformation) : Except PyError Bool := do
  let cp ← s.getattr .champion_pool
  if cp = .atom .pynone then
    return false
  else
    let mp ← s.getattr .matchup_pool
    return !(mp = .atom .pynone)

end SummonerInformation

/-- The five role slots of a `Composition`, as named in
`Composition.__slots__` and in the labels of `GGScraper.inform`. -/
inductive Role where
  | top
  | jungle
  | mid
  | adc
  | support
deriving DecidableEq, Repr

/-- `Composition` from datastruct.py: five `SummonerInformation` slots. -/
structure Composition where
  top : SummonerInformation
  jungle : SummonerInformation
  mid : SummonerInformation
  adc : SummonerInformation
  support : SummonerInformation
deriving DecidableEq, Repr

namespace Composition

/-- `Composition.__init__` (datastruct.py:78-83): build the five entities from
one region and five names. -/
def init (region top jungle mid adc support : String) : Except PyError Composition := do
  let t ← SummonerInformation.init region top
  let j ← SummonerInformation.init region jungle
  let m ← SummonerInformation.init region mid
  let a ← SummonerInformation.init region adc
  let s ← SummonerInformation.init region support
  return ⟨t, j, m, a, s⟩

/-- `Composition.__iter__` (datastruct.py:85-90): yield the five entities in
the fixed order top, jungle, mid, adc, support. -/
def iter (c : Composition) : List SummonerInformation :=
  [c.top, c.jungle, c.mid, c.adc, c.support]

/-- Field access `getattr(team, role)` for the role names used by
`GGScraper.inform`. -/
def getRole (c : Composition) : Role → SummonerInformation :=
  fun r => match r with
  | .top => c.top
  | .jungle => c.jungle
  | .mid => c.mid
  | .adc => c.adc
  | .support => c.support

/-- Functional counterpart of mutating the entity held in one role slot. -/
def setRole (c : Composition) : Role → SummonerInformation → Composition :=
  fun r e => match r with
  | .top => { c with top := e }
  | .jungle => { c with jungle := e }
  | .mid => { c with mid := e }
  | .adc => { c with adc := e }
  | .support => { c with support := e }

end Composition

/-- One row of `GGScraper.df`: columns `name`, `slug`, `id`
(scraper.py:47-52). -/
structure Row where
  name : String
  slug : String
  id : Int
deriving DecidableEq, Repr

/-- `GGScraper` (scraper.py:24-28), with the lazily fetched dataframe `df`
modelled as an injected list of rows. -/
structure GGScraper where
  SHA_C : String
  SHA_M : String
  max_games : Nat
  max_workers : Nat
  df : List Row
deriving Repr

namespace GGScraper

/-- `GGScraper.to_id` (scraper.py:57-60):
`df.loc[df['name'] == name, 'id'].values[0]` — the `id` of the first row whose
`name` matches; `IndexError` (modelled as an error) when no row matches. -/
def to_id (g : GGScraper) (name : String) : Except PyError Int :=
  match (g.df.filter fun r => r.name = name).head? with
  | some r => .ok r.id
  | none => .error .attributeError

/-- `GGScraper.from_id` (scraper.py:62-65): the `name` of the first row whose
`id` matches. -/
def from_id (g : GGScraper) (riot_id : Int) : Except PyError String :=
  match (g.df.filter fun r => r.id = riot_id).head? with
  | some r => .ok r.name
  | none => .error .attributeError

end GGScraper

/-- `GGScraper._fetch` (scraper.py:147-151): `future.result()` with any
exception converted to `None`.  The settled future is the `Except` argument. -/
def _fetch {ε : Type} (future : Except ε (List ChampionSummary)) :
    Option (List ChampionSummary) :=
  match future with
  | .ok xs => some xs
  | .error _ => none

/-- The two fetch categories of `GGScraper.inform`: the target pool slot. -/
inductive Category where
  | champion_pool
  | matchup_pool
deriving DecidableEq, Repr

/-- The slot written for a category (`fs[f].split('.')[1]`). -/
def Category.attr : Category → Attr
  | .champion_pool => .champion_pool
  | .matchup_pool => .matchup_pool

/-- One submitted fetch task of `GGScraper.inform` (scraper.py:159-172): which
entity and category it serves, and the arguments handed to
`get_champion_pool` / `get_matchup_pool`. -/
structure Task where
  role : Role
  category : Category
  summoner : PyAny
  region : PyAny
  roleArg : String
deriving DecidableEq, Repr

/-- The role literal passed as the `role=` keyword argument. -/
def Role.literal : Role → String
  | .top => "TOP"
  | .jungle => "JUNGLE"
  | .mid => "MID"
  | .adc => "ADC"
  | .support => "SUPPORT"

/-- The ten tasks submitted by `GGScraper.inform` (scraper.py:159-172), in
dict-literal order: five champion-pool fetches then five matchup-pool fetches,
each over `team.<role>.name` and `team.<role>.region`. -/
def informTasks (team : Composition) : Except PyError (List Task) := do
  let mkTask (r : Role) (cat : Category) : Except PyError Task := do
    let n ← (team.getRole r).getattr .name
    let reg ← (team.getRole r).getattr .region
    return ⟨r, cat, n, reg, r.literal⟩
  let roles : List Role := [.top, .jungle, .mid, .adc, .support]
  let cps ← roles.mapM fun r => mkTask r .champion_pool
  let mps ← roles.mapM fun r => mkTask r .matchup_pool
  return cps ++ mps

/-- The behaviour of the Remote Data Source during one run: the settled
outcome of each task's future (a list of summaries, or a raised exception). -/
def Remote : Type := Task → Except String (List ChampionSummary)

/-- The body of the `for f in as_completed(fs)` loop (scraper.py:175-177) for
one future: `setattr(getattr(team, role), pool, self._fetch(f))`, with the
`None` of a failed fetch becoming the written Python value. -/
def applyTask (team : Composition) (remote : Remote) (t : Task) :
    Except PyError Composition := do
  let v : PyAny :=
    match _fetch (remote t) with
    | some xs => .list (xs.map PyVal.summary)
    | none => .atom .pynone
  let e ← (team.getRole t.role).setattr t.category.attr v
  return team.setRole t.role e

/-- The whole `for f in as_completed(fs)` loop over a given completion order;
an exception raised by `setattr` aborts the loop and propagates. -/
def informLoop (remote : Remote) (team : Composition) :
    List Task → Except PyError Composition
  | [] => .ok team
  | t :: rest => do
    let team1 ← applyTask team remote t
    informLoop remote team1 rest

/-- `all(info for info in team)` (scraper.py:179): fold `__bool__` over the
iteration order, short-circuiting on the first false, propagating any
`AttributeError` raised by `__bool__`. -/
def allBool : List SummonerInformation → Except PyError Bool
  | [] => .ok true
  | s :: rest => do
    let b ← s.toBool
    if b then allBool rest else return false

/-- `GGScraper.inform` (scraper.py:153-179): submit the ten tasks, write each
settled result in completion order (`order`), then return
`all(info for info in team)`.  `order` is the nondeterministic order in which
`as_completed` yields the futures: any permutation of `informTasks team`. -/
def inform (team : Composition) (remote : Remote) (order : List Task) :
    Except PyError Bool := do
  let _tasks ← informTasks team
  let team1 ← informLoop remote team order
  allBool team1.iter

/-- A concrete summary, standing for one parsed Remote Data Source row. -/
def exampleSummary : ChampionSummary :=
  ⟨"Thresh", "SUPPORT", 6, 100, 3, 2, 10, 400, 60, 4, 6, 120⟩

/-- The roster built by `Composition('NA', 'alice', 'bob', 'carol', 'dave',
'eve')`. -/
def exampleTeam : Composition :=
  ⟨⟨some (.atom (.str "NA")), some (.atom (.str "alice")), none, none⟩,
   ⟨some (.atom (.str "NA")), some (.atom (.str "bob")), none, none⟩,
   ⟨some (.atom (.str "NA")), some (.atom (.str "carol")), none, none⟩,
   ⟨some (.atom (.str "NA")), some (.atom (.str "dave")), none, none⟩,
   ⟨some (.atom (.str "NA")), some (.atom (.str "eve")), none, none⟩⟩

/-- A Remote Data Source behaviour in which exactly one of the ten fetches —
the mid entity's matchup-pool fetch — raises, and every other fetch returns
one summary. -/
def exampleRemote : Remote := fun t =>
  if t.role = .mid ∧ t.category = .matchup_pool then .error "ConnectionError"
  else .ok [exampleSummary]

/-- A completion order for the ten futures of `exampleTeam`: the submission
order itself. -/
def exampleOrder : List Task :=
  [⟨.top, .champion_pool, .atom (.str "alice"), .atom (.str "NA"), "TOP"⟩,
   ⟨.jungle, .champion_pool, .atom (.str "bob"), .atom (.str "NA"), "JUNGLE"⟩,
   ⟨.mid, .champion_pool, .atom (.str "carol"), .atom (.str "NA"), "MID"⟩,
   ⟨.adc, .champion_pool, .atom (.str "dave"), .atom (.str "NA"), "ADC"⟩,
   ⟨.support, .champion_pool, .atom (.str "eve"), .atom (.str "NA"), "SUPPORT"⟩,
   ⟨.top, .matchup_pool, .atom (.str "alice"), .atom (.str "NA"), "TOP"⟩,
   ⟨.jungle, .matchup_pool, .atom (.str "bob"), .atom (.str "NA"), "JUNGLE"⟩,
   ⟨.mid, .matchup_pool, .atom (.str "carol"), .atom (.str "NA"), "MID"⟩,
   ⟨.adc, .matchup_pool, .atom (.str "dave"), .atom (.str "NA"), "ADC"⟩,
   ⟨.support, .matchup_pool, .atom (.str "eve"), .atom (.str "NA"), "SUPPORT"⟩]

/-!
## Theorems for the claims
-/

/-- C5: for every region and name, `SummonerInformation.__init__` succeeds
without error and returns an entity whose region and name equal the arguments
and whose champion pool and matchup pool are both absent. -/
theorem summonerInformation_init_spec (region name : String) :
    SummonerInformation.init region name =
      .ok ⟨some (.atom (.str region)), some (.atom (.str name)), none, none⟩ :=
  rfl

/-- C8: `GGScraper._fetch` returns the future's result list when the task
succeeded and `None` whenever the task raised any exception whatsoever; as a
total function of the settled outcome it never raises. -/
theorem fetch_spec (ε : Type) :
    (∀ xs : List ChampionSummary, _fetch (Except.ok xs : Except ε (List ChampionSummary)) = some xs) ∧
    (∀ e : ε, _fetch (Except.error e : Except ε (List ChampionSummary)) = none) :=
  ⟨fun _ => rfl, fun _ => rfl⟩

/-- C2 (code bug): `SummonerInformation.__bool__` does return `true` when both
pools are set, even to empty sequences, but on an entity whose champion pool
is absent it raises `AttributeError` (reading an unset slot) instead of
returning `false` as the claim and the class docstring state. -/
theorem toBool_raises_when_pool_absent :
    ((SummonerInformation.init "NA" "alice").bind SummonerInformation.toBool
      = .error .attributeError) ∧
    ((do
        let s ← SummonerInformation.init "NA" "alice"
        let s1 ← s.setattr .champion_pool (.list [])
        let s2 ← s1.setattr .matchup_pool (.list [])
        s2.toBool) = Except.ok true) :=
  ⟨rfl, rfl⟩

/-- C10: `Composition.__init__` always succeeds and yields exactly five
entities; `__iter__` traverses them in the fixed order top, jungle, mid, adc,
support; every entity carries the single region argument and its own name
argument. -/
theorem composition_init_spec (region nt nj nm na ns : String) :
    ∃ c : Composition,
      Composition.init region nt nj nm na ns = .ok c ∧
      c.iter = [c.top, c.jungle, c.mid, c.adc, c.support] ∧
      c.iter.length = 5 ∧
      (c.iter.map fun s => s.region) =
        List.replicate 5 (some (.atom (.str region))) ∧
      (c.iter.map fun s => s.name) =
        [some (.atom (.str nt)), some (.atom (.str nj)), some (.atom (.str nm)),
         some (.atom (.str na)), some (.atom (.str ns))] :=
  ⟨_, rfl, rfl, rfl, rfl, rfl⟩

/-- C3: after a first successful write to `champion_pool`, the slot holds
exactly the written value and any second write fails with the reassignment
`TypeError` (the spec's `InvariantViolation`); identically for
`matchup_pool`.  The failing write returns no new state, so the stored first
value is unchanged. -/
theorem setattr_write_once (s t s1 t1 : SummonerInformation) (v1 w1 v2 w2 : PyAny)
    (hc : s.setattr .champion_pool v1 = .ok s1)
    (hm : t.setattr .matchup_pool v2 = .ok t1) :
    (s1.champion_pool = some v1 ∧
      s1.setattr .champion_pool w1 = .error .reassignment) ∧
    (t1.matchup_pool = some v2 ∧
      t1.setattr .matchup_pool w2 = .error .reassignment) := by
  unfold SummonerInformation.setattr at hc hm
  split at hc
  · exact absurd hc (by simp)
  · simp only [reduceCtorEq, or_true, true_or, if_true, reduceIte] at hc
    split at hc
    · split at hm
      · exact absurd hm (by simp)
      · simp only [reduceCtorEq, or_true, true_or, if_true, reduceIte] at hm
        split at hm
        · cases hc
          cases hm
          refine ⟨⟨rfl, ?_⟩, ⟨rfl, ?_⟩⟩
          · simp [SummonerInformation.setattr, SummonerInformation.hasattr,
              SummonerInformation.store]
          · simp [SummonerInformation.setattr, SummonerInformation.hasattr,
              SummonerInformation.store]
        · exact absurd hm (by simp)
    · exact absurd hc (by simp)

/-- C3 witness: concrete first writes succeed, second writes fail. -/
theorem setattr_write_once_witness :
    (SummonerInformation.store ⟨some (.atom (.str "NA")), some (.atom (.str "a")), none, none⟩
        .champion_pool (.list []) |>.champion_pool) = some (.list []) ∧
    (SummonerInformation.store ⟨some (.atom (.str "NA")), some (.atom (.str "a")), none, none⟩
        .champion_pool (.list []) |>.setattr .champion_pool (.list []))
      = .error .reassignment := by
  have h := setattr_write_once
    ⟨some (.atom (.str "NA")), some (.atom (.str "a")), none, none⟩
    ⟨some (.atom (.str "NA")), some (.atom (.str "a")), none, none⟩
    (SummonerInformation.store ⟨some (.atom (.str "NA")), some (.atom (.str "a")), none, none⟩
      .champion_pool (.list []))
    (SummonerInformation.store ⟨some (.atom (.str "NA")), some (.atom (.str "a")), none, none⟩
      .matchup_pool (.list []))
    (.list []) (.list []) (.list []) (.list []) rfl rfl
  exact h.1

/-- C4: writing a sequence that contains at least one non-`ChampionSummary`
element to an absent pool slot fails with the iterable `TypeError` (the
spec's `InvalidInput`); the failing write returns no new state, so the slot
stays absent.  Identically for both pool slots. -/
theorem setattr_type_guard (s t : SummonerInformation) (xs ys : List PyVal) (x y : PyVal)
    (hs : s.champion_pool = none) (hx : x ∈ xs) (hxn : isChampionSummary x = false)
    (ht : t.matchup_pool = none) (hy : y ∈ ys) (hyn : isChampionSummary y = false) :
    s.setattr .champion_pool (.list xs) = .error .badValue ∧
    t.setattr .matchup_pool (.list ys) = .error .badValue := by
  have hxall : xs.all isChampionSummary = false := by
    rw [List.all_eq_false]
    exact ⟨x, hx, by simp [hxn]⟩
  have hyall : ys.all isChampionSummary = false := by
    rw [List.all_eq_false]
    exact ⟨y, hy, by simp [hyn]⟩
  constructor
  · simp [SummonerInformation.setattr, SummonerInformation.hasattr, hs,
      SummonerInformation.summaryCheck, pyIter, hxall]
  · simp [SummonerInformation.setattr, SummonerInformation.hasattr, ht,
      SummonerInformation.summaryCheck, pyIter, hyall]

/-- C4 witness: a list holding a valid summary and a plain string is
rejected on both pool slots of a freshly constructed entity. -/
theorem setattr_type_guard_witness :
    (SummonerInformation.setattr
        ⟨some (.atom (.str "NA")), some (.atom (.str "a")), none, none⟩
        .champion_pool
        (.list [.summary ⟨"Thresh", "SUPPORT", 6, 100, 3, 2, 10, 400, 60, 4, 6, 120⟩,
                .str "not-a-summary"])
      = .error .badValue) ∧
    (SummonerInformation.setattr
        ⟨some (.atom (.str "NA")), some (.atom (.str "a")), none, none⟩
        .matchup_pool
        (.list [.summary ⟨"Thresh", "SUPPORT", 6, 100, 3, 2, 10, 400, 60, 4, 6, 120⟩,
                .str "not-a-summary"])
      = .error .badValue) :=
  setattr_type_guard
    ⟨some (.atom (.str "NA")), some (.atom (.str "a")), none, none⟩
    ⟨some (.atom (.str "NA")), some (.atom (.str "a")), none, none⟩
    [.summary ⟨"Thresh", "SUPPORT", 6, 100, 3, 2, 10, 400, 60, 4, 6, 120⟩, .str "not-a-summary"]
    [.summary ⟨"Thresh", "SUPPORT", 6, 100, 3, 2, 10, 400, 60, 4, 6, 120⟩, .str "not-a-summary"]
    (.str "not-a-summary") (.str "not-a-summary")
    rfl (by simp) rfl rfl (by simp) rfl

/-- C9: the identity fields are fixed at construction: an entity returned by
`__init__` holds exactly the constructor arguments in `region` and `name`,
and any later assignment to either slot fails with the reassignment
`TypeError`, returning no new state. -/
theorem identity_immutable (region name : String) (s : SummonerInformation) (v w : PyAny)
    (h : SummonerInformation.init region name = .ok s) :
    s.region = some (.atom (.str region)) ∧
    s.name = some (.atom (.str name)) ∧
    s.setattr .region v = .error .reassignment ∧
    s.setattr .name w = .error .reassignment := by
  have hinit : SummonerInformation.init region name =
      .ok ⟨some (.atom (.str region)), some (.atom (.str name)), none, none⟩ := rfl
  have hs : (⟨some (.atom (.str region)), some (.atom (.str name)), none, none⟩ :
      SummonerInformation) = s :=
    Except.ok.inj (hinit.symm.trans h)
  subst hs
  exact ⟨rfl, rfl, rfl, rfl⟩

/-- C9 witness: a concretely constructed entity rejects reassignment of both
identity fields. -/
theorem identity_immutable_witness :
    (⟨some (.atom (.str "NA")), some (.atom (.str "alice")), none, none⟩ :
        SummonerInformation).setattr .region (.atom (.str "KR"))
      = .error .reassignment ∧
    (⟨some (.atom (.str "NA")), some (.atom (.str "alice")), none, none⟩ :
        SummonerInformation).setattr .name (.atom (.str "bob"))
      = .error .reassignment := by
  have h := identity_immutable "NA" "alice"
    ⟨some (.atom (.str "NA")), some (.atom (.str "alice")), none, none⟩
    (.atom (.str "KR")) (.atom (.str "bob")) rfl
  exact ⟨h.2.2.1, h.2.2.2⟩

/-- C6: one `inform` run over a constructed roster submits exactly ten fetch
tasks — for each of the five entities one champion-pool fetch and one
matchup-pool fetch, each invoked with that entity's own name, region, and
role literal, in the dict-literal submission order of scraper.py:159-172. -/
theorem informTasks_spec (region nt nj nm na ns : String) (c : Composition)
    (h : Composition.init region nt nj nm na ns = .ok c) :
    informTasks c = .ok
      [⟨.top, .champion_pool, .atom (.str nt), .atom (.str region), "TOP"⟩,
       ⟨.jungle, .champion_pool, .atom (.str nj), .atom (.str region), "JUNGLE"⟩,
       ⟨.mid, .champion_pool, .atom (.str nm), .atom (.str region), "MID"⟩,
       ⟨.adc, .champion_pool, .atom (.str na), .atom (.str region), "ADC"⟩,
       ⟨.support, .champion_pool, .atom (.str ns), .atom (.str region), "SUPPORT"⟩,
       ⟨.top, .matchup_pool, .atom (.str nt), .atom (.str region), "TOP"⟩,
       ⟨.jungle, .matchup_pool, .atom (.str nj), .atom (.str region), "JUNGLE"⟩,
       ⟨.mid, .matchup_pool, .atom (.str nm), .atom (.str region), "MID"⟩,
       ⟨.adc, .matchup_pool, .atom (.str na), .atom (.str region), "ADC"⟩,
       ⟨.support, .matchup_pool, .atom (.str ns), .atom (.str region), "SUPPORT"⟩] := by
  have hinit : Composition.init region nt nj nm na ns = .ok
      ⟨⟨some (.atom (.str region)), some (.atom (.str nt)), none, none⟩,
       ⟨some (.atom (.str region)), some (.atom (.str nj)), none, none⟩,
       ⟨some (.atom (.str region)), some (.atom (.str nm)), none, none⟩,
       ⟨some (.atom (.str region)), some (.atom (.str na)), none, none⟩,
       ⟨some (.atom (.str region)), some (.atom (.str ns)), none, none⟩⟩ := rfl
  have hc := Except.ok.inj (hinit.symm.trans h)
  subst hc
  rfl

/-- C6 witness: the concrete roster over region `"NA"` and five names yields
the explicit ten-task list. -/
theorem informTasks_spec_witness :
    informTasks
      ⟨⟨some (.atom (.str "NA")), some (.atom (.str "t")), none, none⟩,
       ⟨some (.atom (.str "NA")), some (.atom (.str "j")), none, none⟩,
       ⟨some (.atom (.str "NA")), some (.atom (.str "m")), none, none⟩,
       ⟨some (.atom (.str "NA")), some (.atom (.str "a")), none, none⟩,
       ⟨some (.atom (.str "NA")), some (.atom (.str "s")), none, none⟩⟩ = .ok
      [⟨.top, .champion_pool, .atom (.str "t"), .atom (.str "NA"), "TOP"⟩,
       ⟨.jungle, .champion_pool, .atom (.str "j"), .atom (.str "NA"), "JUNGLE"⟩,
       ⟨.mid, .champion_pool, .atom (.str "m"), .atom (.str "NA"), "MID"⟩,
       ⟨.adc, .champion_pool, .atom (.str "a"), .atom (.str "NA"), "ADC"⟩,
       ⟨.support, .champion_pool, .atom (.str "s"), .atom (.str "NA"), "SUPPORT"⟩,
       ⟨.top, .matchup_pool, .atom (.str "t"), .atom (.str "NA"), "TOP"⟩,
       ⟨.jungle, .matchup_pool, .atom (.str "j"), .atom (.str "NA"), "JUNGLE"⟩,
       ⟨.mid, .matchup_pool, .atom (.str "m"), .atom (.str "NA"), "MID"⟩,
       ⟨.adc, .matchup_pool, .atom (.str "a"), .atom (.str "NA"), "ADC"⟩,
       ⟨.support, .matchup_pool, .atom (.str "s"), .atom (.str "NA"), "SUPPORT"⟩] :=
  informTasks_spec "NA" "t" "j" "m" "a" "s"
    ⟨⟨some (.atom (.str "NA")), some (.atom (.str "t")), none, none⟩,
     ⟨some (.atom (.str "NA")), some (.atom (.str "j")), none, none⟩,
     ⟨some (.atom (.str "NA")), some (.atom (.str "m")), none, none⟩,
     ⟨some (.atom (.str "NA")), some (.atom (.str "a")), none, none⟩,
     ⟨some (.atom (.str "NA")), some (.atom (.str "s")), none, none⟩⟩ rfl

/-- In a list whose keys under `f` are pairwise distinct, filtering for the
key of a member returns exactly that member. -/
theorem filter_key_eq_singleton {α β : Type} [DecidableEq β] (f : α → β) :
    ∀ (l : List α) (r : α), (l.map f).Nodup → r ∈ l →
      l.filter (fun x => f x = f r) = [r] := by
  intro l
  induction l with
  | nil => intro r hn hr; cases hr
  | cons a tl ih =>
    intro r hn hr
    rw [List.map_cons, List.nodup_cons] at hn
    rcases List.mem_cons.mp hr with h | h
    · subst h
      have htl : tl.filter (fun x => decide (f x = f r)) = [] := by
        rw [List.filter_eq_nil_iff]
        intro x hx
        simp only [decide_eq_true_eq]
        intro hfx
        exact hn.1 (hfx ▸ List.mem_map_of_mem f hx)
      simp [List.filter_cons, htl]
    · have hne : f a ≠ f r := fun he => hn.1 (he ▸ List.mem_map_of_mem f h)
      simpa [List.filter_cons, hne] using ih r hn.2 h

/-- C7: when the champion table has pairwise-distinct names and
pairwise-distinct ids, `to_id` and `from_id` are mutual inverses on every row
of the table: `to_id` maps the row's name to its id and `from_id` maps that id
back to the name. -/
theorem to_id_from_id_inverse (g : GGScraper) (r : Row)
    (hn : (g.df.map Row.name).Nodup) (hi : (g.df.map Row.id).Nodup)
    (hr : r ∈ g.df) :
    g.to_id r.name = .ok r.id ∧ g.from_id r.id = .ok r.name := by
  constructor
  · unfold GGScraper.to_id
    rw [filter_key_eq_singleton Row.name g.df r hn hr]
    rfl
  · unfold GGScraper.from_id
    rw [filter_key_eq_singleton Row.id g.df r hi hr]
    rfl

/-- C7 witness: inverse lookups on a concrete two-row champion table. -/
theorem to_id_from_id_inverse_witness :
    GGScraper.to_id ⟨"c", "m", 3, 5, [⟨"Aatrox", "aatrox", 266⟩, ⟨"Thresh", "thresh", 412⟩]⟩
        "Thresh" = .ok 412 ∧
    GGScraper.from_id ⟨"c", "m", 3, 5, [⟨"Aatrox", "aatrox", 266⟩, ⟨"Thresh", "thresh", 412⟩]⟩
        412 = .ok "Thresh" :=
  to_id_from_id_inverse
    ⟨"c", "m", 3, 5, [⟨"Aatrox", "aatrox", 266⟩, ⟨"Thresh", "thresh", 412⟩]⟩
    ⟨"Thresh", "thresh", 412⟩ (by decide) (by decide) (by decide)

/-- C1 (code bug): on a roster and Remote Data Source behaviour where exactly
one of the ten fetches fails (the mid entity's matchup-pool fetch) and the
other nine each return one summary, `inform` does not return `false`: writing
the failed task's `None` marker through `__setattr__` raises the iterable
`TypeError`, which propagates to `inform`'s caller. -/
theorem inform_raises_on_failed_fetch :
    Composition.init "NA" "alice" "bob" "carol" "dave" "eve" = .ok exampleTeam ∧
    informTasks exampleTeam = .ok exampleOrder ∧
    exampleOrder.map exampleRemote =
      [.ok [exampleSummary], .ok [exampleSummary], .ok [exampleSummary],
       .ok [exampleSummary], .ok [exampleSummary], .ok [exampleSummary],
       .ok [exampleSummary], .error "ConnectionError", .ok [exampleSummary],
       .ok [exampleSummary]] ∧
    inform exampleTeam exampleRemote exampleOrder = .error .badValue :=
  ⟨rfl, rfl, rfl, rfl⟩

end ITL
